import Mathlib

/-!
Shallow embedding of terraform-provider-garage (Go) for specification
checking.  The definitions below are translated from the repository's
source files:

* `internal/client` (the Garage Admin API client in `provider.go`'s
  concatenated client section): data structures, `NewClient`, and the
  per-endpoint HTTP-response classification logic.
* `internal/provider/bucket_permission_resource.go`: the permission
  reconciliation in `Create`/`Update`, `updateStateFromBucket`, and
  `parseImportID` / `ImportState`.
* `internal/provider/key_resource.go`: `Create`, `Read`, `Update` of the
  `garage_key` resource.
* the bucket resource (`BucketResource.Create` / `Read`): the quota
  request construction and the quota read-back mapping.

HTTP transport is modelled by passing the response (status code and raw
body) resp. a client-call oracle as an explicit argument; JSON decoding
is modelled by an abstract decoding function.  Terraform
`types.String`/`types.Int64` nullable values are modelled as `Option`.
-/

namespace Garage

/-- Go `strings.HasSuffix s suffix`. -/
def goHasSuffix (s suffix : String) : Bool :=
  suffix.data.isSuffixOf s.data

/-- Go `strings.TrimSuffix s suffix`: removes the suffix once when present
(`s[:len(s)-len(suffix)]`), otherwise returns `s` unchanged. -/
def goTrimSuffix (s suffix : String) : String :=
  if goHasSuffix s suffix then ⟨s.data.take (s.data.length - suffix.data.length)⟩ else s

/-- The client's fixed configuration, from `type Client struct` in the
client package (the `httpClient` handle carries no data relevant here). -/
structure Client where
  endpoint : String
  token : String
deriving DecidableEq, Repr

/-- `func NewClient(endpoint, token string) *Client`:
stores `strings.TrimSuffix(endpoint, "/")` and the token. -/
def NewClient (endpoint token : String) : Client :=
  { endpoint := goTrimSuffix endpoint "/", token := token }

/-- `type Permissions struct`: the read/write/owner grant triple. -/
structure Permissions where
  read : Bool
  write : Bool
  owner : Bool
deriving DecidableEq, Repr

/-- `type BucketKeyInfo struct`: one row of a bucket's key list. -/
structure BucketKeyInfo where
  accessKeyId : String
  name : String
  permissions : Permissions
deriving DecidableEq, Repr

/-- `type WebsiteConfig struct`. -/
structure WebsiteConfig where
  indexDocument : String
  errorDocument : String
deriving DecidableEq, Repr

/-- `type BucketQuotas struct`: both fields are nullable (`*int64`). -/
structure BucketQuotas where
  maxSize : Option Int
  maxObjects : Option Int
deriving DecidableEq, Repr

/-- `type Bucket struct`. -/
structure Bucket where
  id : String
  globalAliases : List String
  websiteAccess : Bool
  websiteConfig : Option WebsiteConfig
  keys : List BucketKeyInfo
  objects : Int
  bytes : Int
  unfinishedUploads : Int
  quotas : Option BucketQuotas
deriving DecidableEq, Repr

/-- `type BucketKeyPermRequest struct`: body of AllowBucketKey/DenyBucketKey. -/
structure BucketKeyPermRequest where
  bucketId : String
  accessKeyId : String
  permissions : Permissions
deriving DecidableEq, Repr

/-- `type KeyPermissions struct`. -/
structure KeyPermissions where
  createBucket : Bool
deriving DecidableEq, Repr

/-- `type KeyBucketInfo struct`. -/
structure KeyBucketInfo where
  id : String
  globalAliases : List String
  localAliases : List String
  permissions : Permissions
deriving DecidableEq, Repr

/-- `type AccessKey struct`. -/
structure AccessKey where
  accessKeyId : String
  name : String
  expired : Bool
  created : Option String
  expiration : Option String
  secretAccessKey : Option String
  permissions : KeyPermissions
  buckets : List KeyBucketInfo
deriving DecidableEq, Repr

/-- `type CreateKeyRequest struct`. -/
structure CreateKeyRequest where
  name : Option String
  expiration : Option String
deriving DecidableEq, Repr

/-- An HTTP response as seen by the client's classification code:
the status code and the raw body. -/
structure HttpResponse where
  status : Nat
  body : String
deriving DecidableEq, Repr

/-- The error message built by `fmt.Errorf("API request failed with status
%d: %s", resp.StatusCode, string(body))`, common to every client method. -/
def apiError (status : Nat) (body : String) : String :=
  "API request failed with status " ++ toString status ++ ": " ++ body

/-- The error message built by `fmt.Errorf("failed to decode response: %w", err)`. -/
def decodeError : String := "failed to decode response"

/-- Response classification of `Client.ListBuckets`: only status 200 is
accepted, everything else is an error carrying status and body. -/
def listBucketsClassify (resp : HttpResponse) (decode : String → Option (List Bucket)) :
    Except String (List Bucket) :=
  if resp.status ≠ 200 then .error (apiError resp.status resp.body)
  else match decode resp.body with
    | some bs => .ok bs
    | none => .error decodeError

/-- Response classification of `Client.GetBucketInfo`: 404 is "not found"
(`nil, nil`), any other non-200 status is an error, 200 decodes the body. -/
def getBucketInfoClassify (resp : HttpResponse) (decode : String → Option Bucket) :
    Except String (Option Bucket) :=
  if resp.status = 404 then .ok none
  else if resp.status ≠ 200 then .error (apiError resp.status resp.body)
  else match decode resp.body with
    | some b => .ok (some b)
    | none => .error decodeError

/-- Response classification of `Client.CreateBucket`: 200 and 201 are accepted. -/
def createBucketClassify (resp : HttpResponse) (decode : String → Option Bucket) :
    Except String Bucket :=
  if resp.status ≠ 200 ∧ resp.status ≠ 201 then .error (apiError resp.status resp.body)
  else match decode resp.body with
    | some b => .ok b
    | none => .error decodeError

/-- Response classification of `Client.UpdateBucket`: only 200 is accepted. -/
def updateBucketClassify (resp : HttpResponse) (decode : String → Option Bucket) :
    Except String Bucket :=
  if resp.status ≠ 200 then .error (apiError resp.status resp.body)
  else match decode resp.body with
    | some b => .ok b
    | none => .error decodeError

/-- Response classification of `Client.DeleteBucket`: 200 and 204 are accepted,
no body is decoded. -/
def deleteBucketClassify (resp : HttpResponse) : Except String Unit :=
  if resp.status ≠ 200 ∧ resp.status ≠ 204 then .error (apiError resp.status resp.body)
  else .ok ()

/-- Response classification of `Client.AddBucketAlias`: 200 and 204 accepted. -/
def addBucketAliasClassify (resp : HttpResponse) : Except String Unit :=
  if resp.status ≠ 200 ∧ resp.status ≠ 204 then .error (apiError resp.status resp.body)
  else .ok ()

/-- Response classification of `Client.RemoveBucketAlias`: 200 and 204 accepted. -/
def removeBucketAliasClassify (resp : HttpResponse) : Except String Unit :=
  if resp.status ≠ 200 ∧ resp.status ≠ 204 then .error (apiError resp.status resp.body)
  else .ok ()

/-- Response classification of `Client.AllowBucketKey`: only 200 is accepted. -/
def allowBucketKeyClassify (resp : HttpResponse) (decode : String → Option Bucket) :
    Except String Bucket :=
  if resp.status ≠ 200 then .error (apiError resp.status resp.body)
  else match decode resp.body with
    | some b => .ok b
    | none => .error decodeError

/-- Response classification of `Client.DenyBucketKey`: only 200 is accepted. -/
def denyBucketKeyClassify (resp : HttpResponse) (decode : String → Option Bucket) :
    Except String Bucket :=
  if resp.status ≠ 200 then .error (apiError resp.status resp.body)
  else match decode resp.body with
    | some b => .ok b
    | none => .error decodeError

/-- Response classification of `Client.CreateKey`: 200 and 201 are accepted. -/
def createKeyClassify (resp : HttpResponse) (decode : String → Option AccessKey) :
    Except String AccessKey :=
  if resp.status ≠ 200 ∧ resp.status ≠ 201 then .error (apiError resp.status resp.body)
  else match decode resp.body with
    | some k => .ok k
    | none => .error decodeError

/-- Response classification of `Client.GetKeyInfo`: 404 is "not found"
(`nil, nil`), any other non-200 status is an error, 200 decodes the body. -/
def getKeyInfoClassify (resp : HttpResponse) (decode : String → Option AccessKey) :
    Except String (Option AccessKey) :=
  if resp.status = 404 then .ok none
  else if resp.status ≠ 200 then .error (apiError resp.status resp.body)
  else match decode resp.body with
    | some k => .ok (some k)
    | none => .error decodeError

/-- Response classification of `Client.DeleteKey`: 200 and 204 are accepted. -/
def deleteKeyClassify (resp : HttpResponse) : Except String Unit :=
  if resp.status ≠ 200 ∧ resp.status ≠ 204 then .error (apiError resp.status resp.body)
  else .ok ()

/-- `BucketPermissionResourceModel` from `bucket_permission_resource.go`:
`id` is a computed (nullable) string, `bucket_id` and `access_key_id` are
required strings, the three flags default to `false`. -/
structure BucketPermissionResourceModel where
  id : Option String
  bucketId : String
  accessKeyId : String
  read : Bool
  write : Bool
  owner : Bool
deriving DecidableEq, Repr

/-- A client call issued by the bucket-permission resource. -/
inductive BPApiCall where
  | allow (req : BucketKeyPermRequest)
  | deny (req : BucketKeyPermRequest)
deriving DecidableEq, Repr

/-- `updateStateFromBucket`: re-derive the three flags from the bucket's
key list; the Go loop takes the first row whose `AccessKeyID` matches and
breaks, and asserts all three flags false when no row matches. -/
def updateStateFromBucket (data : BucketPermissionResourceModel) (bucket : Bucket) :
    BucketPermissionResourceModel :=
  match bucket.keys.find? (fun keyInfo => keyInfo.accessKeyId == data.accessKeyId) with
  | some keyInfo =>
      { data with
        read := keyInfo.permissions.read
        write := keyInfo.permissions.write
        owner := keyInfo.permissions.owner }
  | none => { data with read := false, write := false, owner := false }

/-- The `AllowBucketKey` request built in `Update`: each permission is
`flagChanged && newValue` (`readChanged && data.Read.ValueBool()` etc.). -/
def updateAllowReq (plan state : BucketPermissionResourceModel) : BucketKeyPermRequest :=
  { bucketId := plan.bucketId
    accessKeyId := plan.accessKeyId
    permissions :=
      { read := (plan.read != state.read) && plan.read
        write := (plan.write != state.write) && plan.write
        owner := (plan.owner != state.owner) && plan.owner } }

/-- The `DenyBucketKey` request built in `Update`: each permission is
`flagChanged && !newValue`. -/
def updateDenyReq (plan state : BucketPermissionResourceModel) : BucketKeyPermRequest :=
  { bucketId := plan.bucketId
    accessKeyId := plan.accessKeyId
    permissions :=
      { read := (plan.read != state.read) && !plan.read
        write := (plan.write != state.write) && !plan.write
        owner := (plan.owner != state.owner) && !plan.owner } }

/-- The condition guarding the `AllowBucketKey` call in `Update`. -/
def updateOnCond (plan state : BucketPermissionResourceModel) : Bool :=
  ((plan.read != state.read) && plan.read) ||
  ((plan.write != state.write) && plan.write) ||
  ((plan.owner != state.owner) && plan.owner)

/-- The condition guarding the `DenyBucketKey` call in `Update`. -/
def updateOffCond (plan state : BucketPermissionResourceModel) : Bool :=
  ((plan.read != state.read) && !plan.read) ||
  ((plan.write != state.write) && !plan.write) ||
  ((plan.owner != state.owner) && !plan.owner)

/-- `BucketPermissionResource.Create`: one `AllowBucketKey` call carrying
the plan's three flags; on success the composite id is set and the flags
are re-derived from the returned bucket via `updateStateFromBucket`. -/
def bucketPermissionCreate (plan : BucketPermissionResourceModel)
    (alw : BucketKeyPermRequest → Except String Bucket) :
    List BPApiCall × Except String BucketPermissionResourceModel :=
  match alw { bucketId := plan.bucketId, accessKeyId := plan.accessKeyId,
              permissions := { read := plan.read, write := plan.write, owner := plan.owner } } with
  | .error e =>
      ([.allow { bucketId := plan.bucketId, accessKeyId := plan.accessKeyId,
                 permissions := { read := plan.read, write := plan.write, owner := plan.owner } }],
       .error e)
  | .ok bucket =>
      ([.allow { bucketId := plan.bucketId, accessKeyId := plan.accessKeyId,
                 permissions := { read := plan.read, write := plan.write, owner := plan.owner } }],
       .ok (updateStateFromBucket
              { plan with id := some (plan.bucketId ++ "/" ++ plan.accessKeyId) } bucket))

/-- `BucketPermissionResource.Update`: an `AllowBucketKey` call when some
flag is being enabled, then a `DenyBucketKey` call when some flag is being
disabled; the first error aborts; when at least one call was made the
flags are re-derived from the last returned bucket, otherwise the plan
data is stored unchanged (`bucket` stays `nil`). -/
def bucketPermissionUpdate (plan state : BucketPermissionResourceModel)
    (alw dny : BucketKeyPermRequest → Except String Bucket) :
    List BPApiCall × Except String BucketPermissionResourceModel :=
  if updateOnCond plan state then
    match alw (updateAllowReq plan state) with
    | .error e => ([.allow (updateAllowReq plan state)], .error e)
    | .ok bucket =>
      if updateOffCond plan state then
        match dny (updateDenyReq plan state) with
        | .error e =>
            ([.allow (updateAllowReq plan state), .deny (updateDenyReq plan state)], .error e)
        | .ok bucket2 =>
            ([.allow (updateAllowReq plan state), .deny (updateDenyReq plan state)],
             .ok (updateStateFromBucket plan bucket2))
      else ([.allow (updateAllowReq plan state)], .ok (updateStateFromBucket plan bucket))
  else
    if updateOffCond plan state then
      match dny (updateDenyReq plan state) with
      | .error e => ([.deny (updateDenyReq plan state)], .error e)
      | .ok bucket2 =>
          ([.deny (updateDenyReq plan state)], .ok (updateStateFromBucket plan bucket2))
    else ([], .ok plan)

/-- Specification-side view: the flags turning on — a flag turns on when it
differs between previous and desired and the desired value is true. -/
def onFlags (plan state : BucketPermissionResourceModel) : Permissions :=
  { read := plan.read && !state.read
    write := plan.write && !state.write
    owner := plan.owner && !state.owner }

/-- Specification-side view: the flags turning off — a flag turns off when
it differs between previous and desired and the desired value is false. -/
def offFlags (plan state : BucketPermissionResourceModel) : Permissions :=
  { read := !plan.read && state.read
    write := !plan.write && state.write
    owner := !plan.owner && state.owner }

/-- Some flag of the triple is set. -/
def anyFlag (p : Permissions) : Bool := p.read || p.write || p.owner

/-- `splitFirstSlash` finds the first '/' of the character list and splits
around it, mirroring the index loop of `parseImportID`. -/
def splitFirstSlash : List Char → Option (List Char × List Char)
  | [] => none
  | c :: rest =>
    if c = '/' then some ([], rest)
    else match splitFirstSlash rest with
      | some (a, b) => some (c :: a, b)
      | none => none

/-- `func parseImportID(id string) (bucketID, accessKeyID string, ok bool)`:
scan for the first '/', return the part before it, the part after it and
`true`; return two empty strings and `false` when there is no '/'. -/
def parseImportID (id : String) : String × String × Bool :=
  match splitFirstSlash id.data with
  | some (bucketID, accessKeyID) => (⟨bucketID⟩, ⟨accessKeyID⟩, true)
  | none => ("", "", false)

/-- `BucketPermissionResource.ImportState`: on a parsable import ID the
attributes (id, bucket_id, access_key_id) are set; otherwise an error is
reported and no state is set (`none`). -/
def bucketPermissionImportState (reqId : String) : Option (String × String × String) :=
  let r := parseImportID reqId
  if r.2.2 then some (reqId, r.1, r.2.1) else none

/-- `KeyResourceModel` from `key_resource.go`: id, name and
secret_access_key are all nullable strings. -/
structure KeyResourceModel where
  id : Option String
  name : Option String
  secretAccessKey : Option String
deriving DecidableEq, Repr

/-- A client call issued by the key resource. -/
inductive KeyApiCall where
  | createKey (req : CreateKeyRequest)
  | getKeyInfo (id : String)
  | deleteKey (id : String)
deriving DecidableEq, Repr

/-- `types.String.ValueString()`: the underlying string, "" when null. -/
def valueString (o : Option String) : String := o.getD ""

/-- `KeyResource.Create` as present in `key_resource.go`: build a
`CreateKeyRequest` carrying the plan's name when non-null, issue the
`CreateKey` call unconditionally, and on success store the returned id and
name; the returned secret is stored when present, otherwise the plan value
is kept.  The plan's `id` and `secret_access_key` fields are never
examined before the network call. -/
def keyResourceCreate (plan : KeyResourceModel)
    (ck : CreateKeyRequest → Except String AccessKey) :
    List KeyApiCall × Except String KeyResourceModel :=
  match ck { name := plan.name, expiration := none } with
  | .error e => ([.createKey { name := plan.name, expiration := none }], .error e)
  | .ok key =>
      ([.createKey { name := plan.name, expiration := none }],
       .ok { id := some key.accessKeyId
             name := some key.name
             secretAccessKey :=
               match key.secretAccessKey with
               | some s => some s
               | none => plan.secretAccessKey })

/-- `KeyResource.Read`: fetch the key by the state's id; a `nil` key means
the resource is removed from state (`ok none`); otherwise id and name are
taken from the server response and the secret is kept from prior state. -/
def keyResourceRead (state : KeyResourceModel)
    (gk : String → Except String (Option AccessKey)) :
    List KeyApiCall × Except String (Option KeyResourceModel) :=
  match gk (valueString state.id) with
  | .error e => ([.getKeyInfo (valueString state.id)], .error e)
  | .ok none => ([.getKeyInfo (valueString state.id)], .ok none)
  | .ok (some key) =>
      ([.getKeyInfo (valueString state.id)],
       .ok (some { id := some key.accessKeyId
                   name := some key.name
                   secretAccessKey := state.secretAccessKey }))

/-- `KeyResource.Update`: the body only copies the plan into the state and
contains no client invocation at all. -/
def keyResourceUpdate (plan : KeyResourceModel) : List KeyApiCall × KeyResourceModel :=
  ([], plan)

/-- The quota part of the `UpdateBucketRequest` built in
`BucketResource.Create`: a quotas object is attached exactly when at least
one of the two plan fields is non-null, and each present field is copied. -/
def bucketCreateQuotasReq (maxSize maxObjects : Option Int) : Option BucketQuotas :=
  if maxSize.isSome || maxObjects.isSome then
    some { maxSize :=
             match maxSize with
             | some v => some v
             | none => none
           maxObjects :=
             match maxObjects with
             | some v => some v
             | none => none }
  else none

/-- The quota mapping of `BucketResource.Read`: an absent quotas object or
an absent field maps to the null sentinel, a present field to its value. -/
def bucketReadQuotasState (quotas : Option BucketQuotas) : Option Int × Option Int :=
  match quotas with
  | some q =>
      (match q.maxSize with
       | some v => some v
       | none => none,
       match q.maxObjects with
       | some v => some v
       | none => none)
  | none => (none, none)

end Garage

namespace Garage

/-- For booleans, "differs and the new value is true" is the same as "new
is true and old is false". -/
theorem bne_and_self (a b : Bool) : ((a != b) && a) = (a && !b) := by
  cases a <;> cases b <;> rfl

/-- For booleans, "differs and the new value is false" is the same as "new
is false and old is true". -/
theorem bne_and_not_self (a b : Bool) : ((a != b) && !a) = (!a && b) := by
  cases a <;> cases b <;> rfl

theorem updateOnCond_eq (plan state : BucketPermissionResourceModel) :
    updateOnCond plan state = anyFlag (onFlags plan state) := by
  simp [updateOnCond, anyFlag, onFlags, bne_and_self]

theorem updateOffCond_eq (plan state : BucketPermissionResourceModel) :
    updateOffCond plan state = anyFlag (offFlags plan state) := by
  simp [updateOffCond, anyFlag, offFlags, bne_and_not_self]

theorem updateAllowReq_eq (plan state : BucketPermissionResourceModel) :
    updateAllowReq plan state =
      { bucketId := plan.bucketId, accessKeyId := plan.accessKeyId,
        permissions := onFlags plan state } := by
  simp [updateAllowReq, onFlags, bne_and_self]

theorem updateDenyReq_eq (plan state : BucketPermissionResourceModel) :
    updateDenyReq plan state =
      { bucketId := plan.bucketId, accessKeyId := plan.accessKeyId,
        permissions := offFlags plan state } := by
  simp [updateDenyReq, offFlags, bne_and_not_self]

/-- Characterization of `bucketPermissionUpdate` when the client calls
succeed: the calls made, and the stored state as a function of the calls. -/
theorem bucketPermissionUpdate_char (plan state : BucketPermissionResourceModel)
    (alw dny : BucketKeyPermRequest → Except String Bucket)
    (hA : ∀ r, ∃ b, alw r = Except.ok b) (hD : ∀ r, ∃ b, dny r = Except.ok b) :
    (bucketPermissionUpdate plan state alw dny).1 =
      ((if updateOnCond plan state then [BPApiCall.allow (updateAllowReq plan state)] else []) ++
       (if updateOffCond plan state then [BPApiCall.deny (updateDenyReq plan state)] else [])) ∧
    ((bucketPermissionUpdate plan state alw dny).1 ≠ [] →
      ∃ b, (bucketPermissionUpdate plan state alw dny).2 =
        Except.ok (updateStateFromBucket plan b)) ∧
    ((bucketPermissionUpdate plan state alw dny).1 = [] →
      (bucketPermissionUpdate plan state alw dny).2 = Except.ok plan) := by
  obtain ⟨bA, hbA⟩ := hA (updateAllowReq plan state)
  obtain ⟨bD, hbD⟩ := hD (updateDenyReq plan state)
  by_cases hOn : updateOnCond plan state <;> by_cases hOff : updateOffCond plan state <;>
    simp only [bucketPermissionUpdate, hOn, hOff, hbA, hbD, if_true, if_false,
      Bool.false_eq_true, ite_true, ite_false] <;>
    refine ⟨by simp, ?_, by simp⟩
  · exact fun _ => ⟨bD, rfl⟩
  · exact fun _ => ⟨bA, rfl⟩
  · exact fun _ => ⟨bD, rfl⟩
  · exact fun h => absurd rfl h

/-- Claim C3: for the lookup-style client calls `GetBucketInfo` and
`GetKeyInfo`, an HTTP 404 response yields an absent result (`nil` pointer)
together with a `nil` error — never a non-nil error. -/
theorem lookup_404_absent_not_error (body : String)
    (decodeB : String → Option Bucket) (decodeK : String → Option AccessKey) :
    getBucketInfoClassify ⟨404, body⟩ decodeB = .ok none ∧
    getKeyInfoClassify ⟨404, body⟩ decodeK = .ok none := by
  constructor <;> rfl

/-- Claim C4: for every client call, an HTTP response whose status is
neither 2xx nor 404 yields a non-nil error whose message contains the
numeric status code and the raw response body. -/
theorem nonOk_non404_is_error (s : Nat) (b : String)
    (dB : String → Option Bucket) (dLB : String → Option (List Bucket))
    (dK : String → Option AccessKey)
    (hs : ¬ (200 ≤ s ∧ s ≤ 299)) (h404 : s ≠ 404) :
    listBucketsClassify ⟨s, b⟩ dLB = .error (apiError s b) ∧
    getBucketInfoClassify ⟨s, b⟩ dB = .error (apiError s b) ∧
    createBucketClassify ⟨s, b⟩ dB = .error (apiError s b) ∧
    updateBucketClassify ⟨s, b⟩ dB = .error (apiError s b) ∧
    deleteBucketClassify ⟨s, b⟩ = .error (apiError s b) ∧
    addBucketAliasClassify ⟨s, b⟩ = .error (apiError s b) ∧
    removeBucketAliasClassify ⟨s, b⟩ = .error (apiError s b) ∧
    allowBucketKeyClassify ⟨s, b⟩ dB = .error (apiError s b) ∧
    denyBucketKeyClassify ⟨s, b⟩ dB = .error (apiError s b) ∧
    createKeyClassify ⟨s, b⟩ dK = .error (apiError s b) ∧
    getKeyInfoClassify ⟨s, b⟩ dK = .error (apiError s b) ∧
    deleteKeyClassify ⟨s, b⟩ = .error (apiError s b) ∧
    ∃ p q : String, apiError s b = p ++ toString s ++ q ++ b := by
  have h200 : s ≠ 200 := by omega
  have h201 : s ≠ 201 := by omega
  have h204 : s ≠ 204 := by omega
  refine ⟨?_, ?_, ?_, ?_, ?_, ?_, ?_, ?_, ?_, ?_, ?_, ?_, ?_⟩
  · simp [listBucketsClassify, h200]
  · simp [getBucketInfoClassify, h200, h404]
  · simp [createBucketClassify, h200, h201]
  · simp [updateBucketClassify, h200]
  · simp [deleteBucketClassify, h200, h204]
  · simp [addBucketAliasClassify, h200, h204]
  · simp [removeBucketAliasClassify, h200, h204]
  · simp [allowBucketKeyClassify, h200]
  · simp [denyBucketKeyClassify, h200]
  · simp [createKeyClassify, h200, h201]
  · simp [getKeyInfoClassify, h200, h404]
  · simp [deleteKeyClassify, h200, h204]
  · exact ⟨"API request failed with status ", ": ", rfl⟩

/-- Witness for C4: status 500 with body "boom" is neither 2xx nor 404;
the lookup call `GetBucketInfo` then returns the error carrying status and
body. -/
theorem nonOk_non404_is_error_witness :
    (¬ (200 ≤ 500 ∧ 500 ≤ 299)) ∧ (500 : Nat) ≠ 404 ∧
    getBucketInfoClassify ⟨500, "boom"⟩ (fun _ => none) = .error (apiError 500 "boom") :=
  ⟨by decide, by decide,
    (nonOk_non404_is_error 500 "boom" (fun _ => none) (fun _ => none) (fun _ => none)
      (by decide) (by decide)).2.1⟩

/-- Claim C8 counterexample: the claim says the stored endpoint never has a
trailing slash, but `strings.TrimSuffix` removes the suffix only once:
constructing a client from the endpoint "http://h//" stores "http://h/",
which still ends in a slash. -/
theorem newClient_trailing_slash_counterexample :
    (NewClient "http://h//" "t").endpoint = "http://h/" ∧
    goHasSuffix (NewClient "http://h//" "t").endpoint "/" = true := by
  constructor <;> decide

/-- Claim C8 (amended): client construction removes exactly one trailing
slash from the endpoint when one is present (so "http://h/" is stored as
"http://h"), leaves an endpoint without a trailing slash unchanged, and
stores the token unchanged. -/
theorem newClient_normalization (e t : String) (h : goHasSuffix e "/" = false) :
    (NewClient e t).token = t ∧
    (NewClient e t).endpoint = e ∧
    (NewClient ⟨e.data ++ ['/']⟩ t).endpoint = e := by
  refine ⟨rfl, ?_, ?_⟩
  · simp [NewClient, goTrimSuffix, h]
  · have hsuf : goHasSuffix ⟨e.data ++ ['/']⟩ "/" = true := by
      simp [goHasSuffix, List.isSuffixOf_iff_suffix]
    simp only [NewClient, goTrimSuffix, hsuf, if_true]
    have hlen : (e.data ++ ['/']).length - ("/".data).length = e.data.length := by
      simp
    rw [hlen]
    show String.mk ((e.data ++ ['/']).take e.data.length) = e
    rw [List.take_left]

/-- Witness for C8 (amended): "http://h" has no trailing slash; the client
built from it stores it unchanged, and the client built from "http://h/"
(one appended slash) stores "http://h"; the token is stored unchanged. -/
theorem newClient_normalization_witness :
    goHasSuffix "http://h" "/" = false ∧
    (NewClient "http://h" "tok").token = "tok" ∧
    (NewClient "http://h" "tok").endpoint = "http://h" ∧
    (NewClient "http://h/" "tok").endpoint = "http://h" := by
  have h := newClient_normalization "http://h" "tok" (by decide)
  exact ⟨by decide, h.1, h.2.1, by decide⟩

/-- A bucket whose key list is empty, used to instantiate client oracles. -/
def emptyBucket : Bucket :=
  { id := "b", globalAliases := [], websiteAccess := false, websiteConfig := none,
    keys := [], objects := 0, bytes := 0, unfinishedUploads := 0, quotas := none }

/-- Claim C1: for every bucket-permission Update with previous flags
(R0,W0,O0) and desired flags (R1,W1,O1), when the client calls succeed:
the calls made are exactly one AllowBucketKey call whose permissions are
true exactly for the flags turning on (when at least one flag turns on),
followed by exactly one DenyBucketKey call whose permissions are true
exactly for the flags turning off (when at least one flag turns off);
previous equal to desired yields zero calls; at most two calls total. -/
theorem update_call_pattern (plan state : BucketPermissionResourceModel)
    (alw dny : BucketKeyPermRequest → Except String Bucket)
    (hA : ∀ r, ∃ b, alw r = Except.ok b) (hD : ∀ r, ∃ b, dny r = Except.ok b) :
    (bucketPermissionUpdate plan state alw dny).1 =
      ((if anyFlag (onFlags plan state) then
          [BPApiCall.allow { bucketId := plan.bucketId, accessKeyId := plan.accessKeyId,
                             permissions := onFlags plan state }] else []) ++
       (if anyFlag (offFlags plan state) then
          [BPApiCall.deny { bucketId := plan.bucketId, accessKeyId := plan.accessKeyId,
                            permissions := offFlags plan state }] else [])) ∧
    ((plan.read = state.read ∧ plan.write = state.write ∧ plan.owner = state.owner) →
      (bucketPermissionUpdate plan state alw dny).1 = []) ∧
    (bucketPermissionUpdate plan state alw dny).1.length ≤ 2 := by
  have hchar := (bucketPermissionUpdate_char plan state alw dny hA hD).1
  rw [updateOnCond_eq, updateOffCond_eq, updateAllowReq_eq, updateDenyReq_eq] at hchar
  refine ⟨hchar, ?_, ?_⟩
  · rintro ⟨h1, h2, h3⟩
    have hOn : anyFlag (onFlags plan state) = false := by
      simp [anyFlag, onFlags, h1, h2, h3]
    have hOff : anyFlag (offFlags plan state) = false := by
      simp [anyFlag, offFlags, h1, h2, h3]
    rw [hchar, hOn, hOff]
    rfl
  · rw [hchar]
    by_cases c1 : anyFlag (onFlags plan state) <;> by_cases c2 : anyFlag (offFlags plan state) <;>
      simp [c1, c2]

/-- Witness for C1: previous (false,false,false) and desired (true,true,false)
yields exactly one grant call with permissions (true,true,false); previous
(true,true,true) and desired (false,false,false) yields exactly one revoke
call with permissions (true,true,true). -/
theorem update_call_pattern_witness :
    (bucketPermissionUpdate
        ⟨some "b/k", "b", "k", true, true, false⟩ ⟨some "b/k", "b", "k", false, false, false⟩
        (fun _ => Except.ok emptyBucket) (fun _ => Except.ok emptyBucket)).1 =
      [BPApiCall.allow ⟨"b", "k", ⟨true, true, false⟩⟩] ∧
    (bucketPermissionUpdate
        ⟨some "b/k", "b", "k", false, false, false⟩ ⟨some "b/k", "b", "k", true, true, true⟩
        (fun _ => Except.ok emptyBucket) (fun _ => Except.ok emptyBucket)).1 =
      [BPApiCall.deny ⟨"b", "k", ⟨true, true, true⟩⟩] := by
  constructor
  · rw [(update_call_pattern
      ⟨some "b/k", "b", "k", true, true, false⟩ ⟨some "b/k", "b", "k", false, false, false⟩
      (fun _ => Except.ok emptyBucket) (fun _ => Except.ok emptyBucket)
      (fun _ => ⟨emptyBucket, rfl⟩) (fun _ => ⟨emptyBucket, rfl⟩)).1]
    rfl
  · rw [(update_call_pattern
      ⟨some "b/k", "b", "k", false, false, false⟩ ⟨some "b/k", "b", "k", true, true, true⟩
      (fun _ => Except.ok emptyBucket) (fun _ => Except.ok emptyBucket)
      (fun _ => ⟨emptyBucket, rfl⟩) (fun _ => ⟨emptyBucket, rfl⟩)).1]
    rfl

/-- Claim C5: after a successful grant or revoke call during
bucket-permission Create or Update, the three flags are re-derived from
the returned bucket's key list via `updateStateFromBucket`: the row for
the relevant access key supplies the flags, and an absent row sets all
three flags to false locally without raising an error. -/
theorem resync_after_call (plan state : BucketPermissionResourceModel)
    (alw dny : BucketKeyPermRequest → Except String Bucket)
    (hA : ∀ r, ∃ b, alw r = Except.ok b) (hD : ∀ r, ∃ b, dny r = Except.ok b) :
    (∀ (d : BucketPermissionResourceModel) (b : Bucket),
        b.keys.find? (fun keyInfo => keyInfo.accessKeyId == d.accessKeyId) = none →
        updateStateFromBucket d b = { d with read := false, write := false, owner := false }) ∧
    (∀ (d : BucketPermissionResourceModel) (b : Bucket) (k : BucketKeyInfo),
        b.keys.find? (fun keyInfo => keyInfo.accessKeyId == d.accessKeyId) = some k →
        updateStateFromBucket d b =
          { d with read := k.permissions.read, write := k.permissions.write,
                   owner := k.permissions.owner }) ∧
    (∃ b, alw { bucketId := plan.bucketId, accessKeyId := plan.accessKeyId,
                permissions := { read := plan.read, write := plan.write, owner := plan.owner } }
            = Except.ok b ∧
        (bucketPermissionCreate plan alw).2 =
          Except.ok (updateStateFromBucket
            { plan with id := some (plan.bucketId ++ "/" ++ plan.accessKeyId) } b)) ∧
    ((bucketPermissionUpdate plan state alw dny).1 ≠ [] →
        ∃ b, (bucketPermissionUpdate plan state alw dny).2 =
          Except.ok (updateStateFromBucket plan b)) := by
  refine ⟨?_, ?_, ?_, (bucketPermissionUpdate_char plan state alw dny hA hD).2.1⟩
  · intro d b h
    simp [updateStateFromBucket, h]
  · intro d b k h
    simp [updateStateFromBucket, h]
  · obtain ⟨b, hb⟩ := hA ⟨plan.bucketId, plan.accessKeyId, ⟨plan.read, plan.write, plan.owner⟩⟩
    exact ⟨b, hb, by simp [bucketPermissionCreate, hb]⟩

/-- Witness for C5: creating a permission against a bucket whose returned
key list has no row for the key stores all three flags as false without
an error. -/
theorem resync_after_call_witness :
    updateStateFromBucket ⟨some "b/k", "b", "k", true, true, false⟩ emptyBucket =
      ⟨some "b/k", "b", "k", false, false, false⟩ ∧
    (bucketPermissionCreate ⟨none, "b", "k", true, false, false⟩
        (fun _ => Except.ok emptyBucket)).2 =
      Except.ok ⟨some "b/k", "b", "k", false, false, false⟩ := by
  have h := resync_after_call ⟨none, "b", "k", true, false, false⟩
    ⟨none, "b", "k", true, false, false⟩
    (fun _ => Except.ok emptyBucket) (fun _ => Except.ok emptyBucket)
    (fun _ => ⟨emptyBucket, rfl⟩) (fun _ => ⟨emptyBucket, rfl⟩)
  refine ⟨h.1 ⟨some "b/k", "b", "k", true, true, false⟩ emptyBucket rfl, ?_⟩
  obtain ⟨b, hb, hc⟩ := h.2.2.1
  have hb2 : b = emptyBucket := by
    have := hb
    simpa using this.symm
  rw [hc, hb2]
  rfl

/-- `splitFirstSlash` splits around the first '/' when the part before it
contains none. -/
theorem splitFirstSlash_append (pre post : List Char) (hpre : '/' ∉ pre) :
    splitFirstSlash (pre ++ '/' :: post) = some (pre, post) := by
  induction pre with
  | nil => simp [splitFirstSlash]
  | cons c cs ih =>
    have hc : c ≠ '/' := fun h => hpre (h ▸ List.mem_cons_self c cs)
    have hcs : '/' ∉ cs := fun h => hpre (List.mem_cons_of_mem c h)
    simp [splitFirstSlash, hc, ih hcs]

/-- `splitFirstSlash` fails exactly on slash-free input. -/
theorem splitFirstSlash_none (l : List Char) (h : '/' ∉ l) :
    splitFirstSlash l = none := by
  induction l with
  | nil => rfl
  | cons c cs ih =>
    have hc : c ≠ '/' := fun hcc => h (hcc ▸ List.mem_cons_self c cs)
    have hcs : '/' ∉ cs := fun hm => h (List.mem_cons_of_mem c hm)
    simp [splitFirstSlash, hc, ih hcs]

/-- Claim C6: a bucket-permission import identifier containing a '/' is
split on the first slash into bucket_id (the prefix before the first '/')
and access_key_id (everything after it), and ImportState sets the three
attributes; "b1/k1" yields bucket_id="b1" and access_key_id="k1"; an
identifier containing no '/' is rejected and no state is set. -/
theorem import_id_split (pre post s : String)
    (hpre : '/' ∉ pre.data) (hs : '/' ∉ s.data) :
    parseImportID ⟨pre.data ++ '/' :: post.data⟩ = (pre, post, true) ∧
    bucketPermissionImportState ⟨pre.data ++ '/' :: post.data⟩ =
      some (⟨pre.data ++ '/' :: post.data⟩, pre, post) ∧
    parseImportID "b1/k1" = ("b1", "k1", true) ∧
    bucketPermissionImportState "b1/k1" = some ("b1/k1", "b1", "k1") ∧
    parseImportID s = ("", "", false) ∧
    bucketPermissionImportState s = none := by
  have h1 : parseImportID ⟨pre.data ++ '/' :: post.data⟩ = (pre, post, true) := by
    show (match splitFirstSlash (pre.data ++ '/' :: post.data) with
      | some (bucketID, accessKeyID) => ((⟨bucketID⟩ : String), (⟨accessKeyID⟩ : String), true)
      | none => ("", "", false)) = (pre, post, true)
    rw [splitFirstSlash_append pre.data post.data hpre]
  have h5 : parseImportID s = ("", "", false) := by
    show (match splitFirstSlash s.data with
      | some (bucketID, accessKeyID) => ((⟨bucketID⟩ : String), (⟨accessKeyID⟩ : String), true)
      | none => ("", "", false)) = ("", "", false)
    rw [splitFirstSlash_none s.data hs]
  refine ⟨h1, ?_, by decide, by decide, h5, ?_⟩
  · simp [bucketPermissionImportState, h1]
  · simp [bucketPermissionImportState, h5]

/-- Witness for C6: "b1" and "k1" are slash-free; "b1/k1" parses into
("b1", "k1") and "nok" is rejected with no state set. -/
theorem import_id_split_witness :
    ('/' ∉ "b1".data) ∧ ('/' ∉ "nok".data) ∧
    parseImportID ⟨"b1".data ++ '/' :: "k1".data⟩ = ("b1", "k1", true) ∧
    bucketPermissionImportState "nok" = none := by
  have h := import_id_split "b1" "k1" "nok" (by decide) (by decide)
  exact ⟨by decide, by decide, h.1, h.2.2.2.2.2⟩

/-- Claim C2 (evidence of the divergence): the `garage_key` Create in
`key_resource.go` performs no local validation of the id /
secret_access_key pair: even with exactly one of the two supplied
(id set, secret absent) it issues the `CreateKey` network call, and the
only failure surfaced is the network error — there is no local rejection
before the call. -/
theorem keyCreate_adoption_not_validated :
    (keyResourceCreate ⟨some "GK123456789abcdef01234567", none, none⟩
        (fun _ => Except.error "network unreachable")).1 =
      [KeyApiCall.createKey { name := none, expiration := none }] ∧
    (keyResourceCreate ⟨some "GK123456789abcdef01234567", none, none⟩
        (fun _ => Except.error "network unreachable")).2 =
      Except.error "network unreachable" :=
  ⟨rfl, rfl⟩

/-- Claim C9: a `garage_key` Read that finds the key remotely updates only
the id and name fields from the server response; the secret_access_key
field is left exactly as it was in the prior state. -/
theorem keyRead_preserves_secret (state : KeyResourceModel)
    (gk : String → Except String (Option AccessKey)) (key : AccessKey)
    (h : gk (valueString state.id) = Except.ok (some key)) :
    keyResourceRead state gk =
      ([KeyApiCall.getKeyInfo (valueString state.id)],
       Except.ok (some { id := some key.accessKeyId
                         name := some key.name
                         secretAccessKey := state.secretAccessKey })) := by
  simp [keyResourceRead, h]

/-- A key as returned by GetKeyInfo: no secret is ever re-exposed. -/
def sampleKey : AccessKey :=
  { accessKeyId := "GKid", name := "newname", expired := false, created := none,
    expiration := none, secretAccessKey := none, permissions := ⟨false⟩, buckets := [] }

/-- Witness for C9: refreshing a key whose prior state holds the secret
"SECRET" keeps that exact secret while id and name come from the server. -/
theorem keyRead_preserves_secret_witness :
    (fun _ => Except.ok (some sampleKey) :
        String → Except String (Option AccessKey)) (valueString (some "GKid")) =
      Except.ok (some sampleKey) ∧
    keyResourceRead ⟨some "GKid", some "oldname", some "SECRET"⟩
        (fun _ => Except.ok (some sampleKey)) =
      ([KeyApiCall.getKeyInfo "GKid"],
       Except.ok (some ⟨some "GKid", some "newname", some "SECRET"⟩)) :=
  ⟨rfl, keyRead_preserves_secret ⟨some "GKid", some "oldname", some "SECRET"⟩
    (fun _ => Except.ok (some sampleKey)) sampleKey rfl⟩

/-- Claim C10: a `garage_key` Update issues no client call of any kind and
the resulting Terraform state equals the planned values verbatim. -/
theorem keyUpdate_no_calls (plan : KeyResourceModel) :
    (keyResourceUpdate plan).1 = [] ∧ (keyResourceUpdate plan).2 = plan :=
  ⟨rfl, rfl⟩

/-- Claim C7: round-trip of bucket quotas — for a bucket whose stored
quotas are exactly those the Create path sent (the server echoing the
update request), Read maps the quota fields back to the original plan
values: a set max_size reads back unchanged, and a bucket with neither
quota field set reads back with both fields null (absent), not zero. -/
theorem quota_roundtrip (ms mo : Option Int) (b : Bucket)
    (h : b.quotas = bucketCreateQuotasReq ms mo) :
    bucketReadQuotasState b.quotas = (ms, mo) := by
  rw [h]
  cases ms <;> cases mo <;> rfl

/-- A bucket carrying the quotas produced by a create with
max_size = 1073741824 and max_objects unset. -/
def sampleQuotaBucket : Bucket :=
  { id := "b", globalAliases := [], websiteAccess := false, websiteConfig := none,
    keys := [], objects := 0, bytes := 0, unfinishedUploads := 0,
    quotas := some { maxSize := some 1073741824, maxObjects := none } }

/-- Witness for C7: a bucket created with max_size 1073741824 reads back
with the same max_size and a null max_objects; a bucket with no quotas
reads back with both fields null. -/
theorem quota_roundtrip_witness :
    sampleQuotaBucket.quotas = bucketCreateQuotasReq (some 1073741824) none ∧
    bucketReadQuotasState sampleQuotaBucket.quotas = (some 1073741824, none) ∧
    emptyBucket.quotas = bucketCreateQuotasReq none none ∧
    bucketReadQuotasState emptyBucket.quotas = (none, none) :=
  ⟨rfl, quota_roundtrip (some 1073741824) none sampleQuotaBucket rfl,
   rfl, quota_roundtrip none none emptyBucket rfl⟩

end Garage
